import Mathlib

/-!
Verification development for a weekly task-planning front end.

The repository's stores (a task store and a time-entry store) keep an
in-memory mirror of a remote REST collection and mutate it optimistically,
rolling back when the remote call fails.  Below, each store action is
embedded as a pure Lean function: the nondeterminism of the network is made
explicit by a `FetchResult` argument describing how the single `fetch` call
of the action behaves (rejected promise, or a response with an `ok` flag, a
status code and a JSON body that either parses or throws).  JavaScript
string timestamps (`Date.now()`, `new Date().toISOString()`) are passed in
as explicit arguments.  All date arithmetic is modelled in UTC.
-/

set_option autoImplicit false

namespace Planner

/-- Task status enum (`src/unnamed/part_004`, `TaskStatus`). -/
inductive TaskStatus where
  | not_started
  | in_progress
  | completed
deriving DecidableEq, Repr

/-- The `Task` record (`src/unnamed/part_004`).  Areas are kept as plain
strings; `description` is an optional field. -/
structure Task where
  id : String
  weekId : String
  title : String
  description : Option String
  areas : List String
  estimatedMinutes : Nat
  actualMinutes : Nat
  status : TaskStatus
  createdAt : String
  updatedAt : String
deriving DecidableEq, Repr

/-- The `TimeEntry` record (`src/unnamed/part_004`). -/
structure TimeEntry where
  id : String
  taskId : String
  startTime : String
  endTime : Option String
  minutes : Nat
  isManual : Bool
  notes : Option String
  createdAt : String
deriving DecidableEq, Repr

/-- The `Week` record (`src/unnamed/part_004`). -/
structure Week where
  id : String
  title : Option String
  description : Option String
  startDate : String
  endDate : String
  totalPlannedMinutes : Nat
  totalActualMinutes : Nat
  isCurrentWeek : Bool
  createdAt : String
  updatedAt : String
deriving DecidableEq, Repr

instance exceptDecEq {ε α : Type} [DecidableEq ε] [DecidableEq α] :
    DecidableEq (Except ε α) := fun x y =>
  match x, y with
  | .ok a, .ok b =>
    if h : a = b then isTrue (by rw [h]) else isFalse (by simp [h])
  | .error a, .error b =>
    if h : a = b then isTrue (by rw [h]) else isFalse (by simp [h])
  | .ok _, .error _ => isFalse (by simp)
  | .error _, .ok _ => isFalse (by simp)

/-- Outcome of the one `fetch` call an action performs.
`reject msg` models a rejected fetch promise (network/transport failure,
an `Error` whose message is `msg`); `response ok status body` models a
settled HTTP response, where `body` is the result of `response.json()`
(`Except.error msg` when the body does not parse and `json()` throws). -/
inductive FetchResult (α : Type) where
  | reject (msg : String)
  | response (ok : Bool) (status : Nat) (body : Except String α)
deriving DecidableEq, Repr

/-- `true` when the remote call failed in the sense of the spec: the fetch
rejected or the response status was non-2xx. -/
def FetchResult.failed {α : Type} : FetchResult α → Bool
  | .reject _ => true
  | .response ok _ _ => !ok

/-- State of the task store (`src/unnamed/part_005`): the local task
collection, the loading flag and the readable error slot. -/
structure TaskStoreState where
  tasks : List Task
  isLoading : Bool
  error : Option String
deriving DecidableEq, Repr

/-- State of the time-entry store (`src/app/src/stores/timeEntryStore.ts`). -/
structure TimeEntryStoreState where
  timeEntries : List TimeEntry
  isLoading : Bool
  error : Option String
deriving DecidableEq, Repr

/-- Everything observable once a store action settles: the final store
state, the value the returned promise settles with (`Except.error` =
rejected), and whether a network request was issued at all. -/
structure ActionOut (σ : Type) (α : Type) where
  state : σ
  result : Except String α
  didFetch : Bool
deriving DecidableEq, Repr

/-- The message stored in the error slot for a caught error `e`
(`err instanceof Error ? err.message : fallback`); every error thrown in
the actions is an `Error` carrying a message, so the slot gets `e`. -/
def httpErrorMsg (status : Nat) : String :=
  "HTTP error! status: " ++ toString status

/-- `fetchTasks` (`src/unnamed/part_005`, lines 43-62): fetch the whole
collection and replace local state wholesale; on any failure the local
collection is left untouched, the error slot is set and the promise
rejects.  `r` is the behaviour of the `fetch`. -/
def fetchTasksRun (s : TaskStoreState) (r : FetchResult (List Task)) :
    ActionOut TaskStoreState Unit :=
  match r with
  | .reject msg =>
    ⟨{ tasks := s.tasks, isLoading := false, error := some msg }, .error msg, true⟩
  | .response ok status body =>
    if !ok then
      ⟨{ tasks := s.tasks, isLoading := false, error := some (httpErrorMsg status) },
       .error (httpErrorMsg status), true⟩
    else
      match body with
      | .error msg =>
        ⟨{ tasks := s.tasks, isLoading := false, error := some msg }, .error msg, true⟩
      | .ok fetched =>
        ⟨{ tasks := fetched, isLoading := false, error := none }, .ok (), true⟩

/-- The draft passed to `createTask`:
`Omit<Task, 'id' | 'createdAt' | 'updatedAt' | 'actualMinutes'>`. -/
structure TaskDraft where
  weekId : String
  title : String
  description : Option String
  areas : List String
  estimatedMinutes : Nat
  status : TaskStatus
deriving DecidableEq, Repr

/-- The optimistic record built at the top of `createTask`: the draft plus
`id := genId` (source: `task-` ++ epoch millis), zeroed `actualMinutes` and
fresh timestamps. -/
def mkNewTask (d : TaskDraft) (genId now : String) : Task :=
  { id := genId
    weekId := d.weekId
    title := d.title
    description := d.description
    areas := d.areas
    estimatedMinutes := d.estimatedMinutes
    actualMinutes := 0
    status := d.status
    createdAt := now
    updatedAt := now }

/-- `createTask` (`src/unnamed/part_005`, lines 64-111).  The optimistic
record is pushed first; on a non-2xx response it is rolled back by
filtering out its id; on a rejected fetch the catch block runs with no
rollback; on success the record at the new id is replaced by the server's
response. -/
def createTaskRun (s : TaskStoreState) (d : TaskDraft) (genId now : String)
    (r : FetchResult Task) : ActionOut TaskStoreState Task :=
  let newTask := mkNewTask d genId now
  let pushed := s.tasks ++ [newTask]
  match r with
  | .reject msg =>
    ⟨{ tasks := pushed, isLoading := false, error := some msg }, .error msg, true⟩
  | .response ok status body =>
    if !ok then
      ⟨{ tasks := pushed.filter (fun t => t.id ≠ newTask.id), isLoading := false,
         error := some (httpErrorMsg status) },
       .error (httpErrorMsg status), true⟩
    else
      match body with
      | .error msg =>
        ⟨{ tasks := pushed, isLoading := false, error := some msg }, .error msg, true⟩
      | .ok createdTask =>
        let i := pushed.findIdx (fun t => t.id = newTask.id)
        let final := if i < pushed.length then pushed.set i createdTask else pushed
        ⟨{ tasks := final, isLoading := false, error := none }, .ok createdTask, true⟩

/-- The partial update passed to `updateTask`:
`Partial<Omit<Task, 'id' | 'createdAt'>>`; a `some` field is present in the
object spread, a `none` field is absent. -/
structure TaskUpdates where
  weekId : Option String := none
  title : Option String := none
  description : Option (Option String) := none
  areas : Option (List String) := none
  estimatedMinutes : Option Nat := none
  actualMinutes : Option Nat := none
  status : Option TaskStatus := none
  updatedAt : Option String := none
deriving DecidableEq, Repr

/-- `{ ...originalTask, ...updates, updatedAt: new Date().toISOString() }`. -/
def applyTaskUpdates (t : Task) (u : TaskUpdates) (now : String) : Task :=
  { id := t.id
    weekId := u.weekId.getD t.weekId
    title := u.title.getD t.title
    description := u.description.getD t.description
    areas := u.areas.getD t.areas
    estimatedMinutes := u.estimatedMinutes.getD t.estimatedMinutes
    actualMinutes := u.actualMinutes.getD t.actualMinutes
    status := u.status.getD t.status
    createdAt := t.createdAt
    updatedAt := now }

/-- `updateTask` (`src/unnamed/part_005`, lines 113-159).  `findIndex` on
the id; `Task not found` is thrown before any fetch when absent.  The
snapshot `originalTask` is restored at the same index on a non-2xx
response; a rejected fetch skips the rollback. -/
def updateTaskRun (s : TaskStoreState) (taskId : String) (u : TaskUpdates)
    (now : String) (r : FetchResult Task) : ActionOut TaskStoreState Task :=
  match s.tasks.findIdx? (fun t => t.id = taskId) with
  | none =>
    ⟨{ tasks := s.tasks, isLoading := false, error := some "Task not found" },
     .error "Task not found", false⟩
  | some i =>
    match s.tasks[i]? with
    | none =>
      -- unreachable: `findIdx?` only returns indices inside the list
      ⟨{ tasks := s.tasks, isLoading := false, error := some "Task not found" },
       .error "Task not found", false⟩
    | some originalTask =>
      let updatedTask := applyTaskUpdates originalTask u now
      let optimistic := s.tasks.set i updatedTask
      match r with
      | .reject msg =>
        ⟨{ tasks := optimistic, isLoading := false, error := some msg }, .error msg, true⟩
      | .response ok status body =>
        if !ok then
          ⟨{ tasks := optimistic.set i originalTask, isLoading := false,
             error := some (httpErrorMsg status) },
           .error (httpErrorMsg status), true⟩
        else
          match body with
          | .error msg =>
            ⟨{ tasks := optimistic, isLoading := false, error := some msg },
             .error msg, true⟩
          | .ok serverTask =>
            ⟨{ tasks := optimistic.set i serverTask, isLoading := false, error := none },
             .ok serverTask, true⟩

/-- `deleteTask` (`src/unnamed/part_005`, lines 161-195).  `findIndex` on
the id; `Task not found` is thrown before any fetch when absent.  The
record is spliced out optimistically and spliced back in at its original
index on a non-2xx response; a rejected fetch skips the re-insertion. -/
def deleteTaskRun (s : TaskStoreState) (taskId : String)
    (r : FetchResult Unit) : ActionOut TaskStoreState Bool :=
  match s.tasks.findIdx? (fun t => t.id = taskId) with
  | none =>
    ⟨{ tasks := s.tasks, isLoading := false, error := some "Task not found" },
     .error "Task not found", false⟩
  | some i =>
    match s.tasks[i]? with
    | none =>
      -- unreachable: `findIdx?` only returns indices inside the list
      ⟨{ tasks := s.tasks, isLoading := false, error := some "Task not found" },
       .error "Task not found", false⟩
    | some deletedTask =>
      let removed := s.tasks.eraseIdx i
      match r with
      | .reject msg =>
        ⟨{ tasks := removed, isLoading := false, error := some msg }, .error msg, true⟩
      | .response ok status _ =>
        if !ok then
          ⟨{ tasks := removed.insertIdx i deletedTask, isLoading := false,
             error := some (httpErrorMsg status) },
           .error (httpErrorMsg status), true⟩
        else
          ⟨{ tasks := removed, isLoading := false, error := none }, .ok true, true⟩

/-- `fetchTimeEntries` (`src/app/src/stores/timeEntryStore.ts`, lines
21-42): fetch the whole collection, replace local state wholesale on
success, leave it untouched on failure. -/
def fetchTimeEntriesRun (s : TimeEntryStoreState) (r : FetchResult (List TimeEntry)) :
    ActionOut TimeEntryStoreState (List TimeEntry) :=
  match r with
  | .reject msg =>
    ⟨{ timeEntries := s.timeEntries, isLoading := false, error := some msg },
     .error msg, true⟩
  | .response ok status body =>
    if !ok then
      ⟨{ timeEntries := s.timeEntries, isLoading := false,
         error := some (httpErrorMsg status) },
       .error (httpErrorMsg status), true⟩
    else
      match body with
      | .error msg =>
        ⟨{ timeEntries := s.timeEntries, isLoading := false, error := some msg },
         .error msg, true⟩
      | .ok fetched =>
        ⟨{ timeEntries := fetched, isLoading := false, error := none }, .ok fetched, true⟩

/-- The draft passed to `createTimeEntry`: `Omit<TimeEntry, 'id' | 'createdAt'>`. -/
structure TimeEntryDraft where
  taskId : String
  startTime : String
  endTime : Option String
  minutes : Nat
  isManual : Bool
  notes : Option String
deriving DecidableEq, Repr

/-- The record built at the top of `createTimeEntry`: the draft plus
`id := genId` (source: `entry-` ++ epoch millis) and a fresh `createdAt`. -/
def mkNewEntry (d : TimeEntryDraft) (genId now : String) : TimeEntry :=
  { id := genId
    taskId := d.taskId
    startTime := d.startTime
    endTime := d.endTime
    minutes := d.minutes
    isManual := d.isManual
    notes := d.notes
    createdAt := now }

/-- `createTimeEntry` (`src/app/src/stores/timeEntryStore.ts`, lines
44-78).  Unlike the task store this action is not optimistic: the server's
response is pushed onto the local collection only after a 2xx response
whose body parses; on any failure the collection is unchanged. -/
def createTimeEntryRun (s : TimeEntryStoreState) (d : TimeEntryDraft)
    (genId now : String) (r : FetchResult TimeEntry) :
    ActionOut TimeEntryStoreState TimeEntry :=
  let _newEntry := mkNewEntry d genId now  -- built and sent as the request body
  match r with
  | .reject msg =>
    ⟨{ timeEntries := s.timeEntries, isLoading := false, error := some msg },
     .error msg, true⟩
  | .response ok status body =>
    if !ok then
      ⟨{ timeEntries := s.timeEntries, isLoading := false,
         error := some (httpErrorMsg status) },
       .error (httpErrorMsg status), true⟩
    else
      match body with
      | .error msg =>
        ⟨{ timeEntries := s.timeEntries, isLoading := false, error := some msg },
         .error msg, true⟩
      | .ok createdEntry =>
        ⟨{ timeEntries := s.timeEntries ++ [createdEntry], isLoading := false,
           error := none },
         .ok createdEntry, true⟩

/-- The partial update passed to `updateTimeEntry`: `Partial<TimeEntry>`
(every field of the record, `id` and `createdAt` included). -/
structure TimeEntryUpdates where
  id : Option String := none
  taskId : Option String := none
  startTime : Option String := none
  endTime : Option (Option String) := none
  minutes : Option Nat := none
  isManual : Option Bool := none
  notes : Option (Option String) := none
  createdAt : Option String := none
deriving DecidableEq, Repr

/-- `{ ...existingEntry, ...updates }`. -/
def applyEntryUpdates (e : TimeEntry) (u : TimeEntryUpdates) : TimeEntry :=
  { id := u.id.getD e.id
    taskId := u.taskId.getD e.taskId
    startTime := u.startTime.getD e.startTime
    endTime := u.endTime.getD e.endTime
    minutes := u.minutes.getD e.minutes
    isManual := u.isManual.getD e.isManual
    notes := u.notes.getD e.notes
    createdAt := u.createdAt.getD e.createdAt }

/-- `updateTimeEntry` (`src/app/src/stores/timeEntryStore.ts`, lines
80-118).  `find` on the id throws `Time entry not found` before any fetch
when absent; the local record is replaced — by the server's response, at
the index found after the fetch — only on success, so failures leave the
collection unchanged (this action is not optimistic). -/
def updateTimeEntryRun (s : TimeEntryStoreState) (id : String)
    (u : TimeEntryUpdates) (r : FetchResult TimeEntry) :
    ActionOut TimeEntryStoreState TimeEntry :=
  match s.timeEntries.find? (fun e => e.id = id) with
  | none =>
    ⟨{ timeEntries := s.timeEntries, isLoading := false,
       error := some "Time entry not found" },
     .error "Time entry not found", false⟩
  | some existingEntry =>
    let _updatedEntry := applyEntryUpdates existingEntry u
    match r with
    | .reject msg =>
      ⟨{ timeEntries := s.timeEntries, isLoading := false, error := some msg },
       .error msg, true⟩
    | .response ok status body =>
      if !ok then
        ⟨{ timeEntries := s.timeEntries, isLoading := false,
           error := some (httpErrorMsg status) },
         .error (httpErrorMsg status), true⟩
      else
        match body with
        | .error msg =>
          ⟨{ timeEntries := s.timeEntries, isLoading := false, error := some msg },
           .error msg, true⟩
        | .ok responseEntry =>
          let i := s.timeEntries.findIdx (fun e => e.id = id)
          let final := if i < s.timeEntries.length
            then s.timeEntries.set i responseEntry else s.timeEntries
          ⟨{ timeEntries := final, isLoading := false, error := none },
           .ok responseEntry, true⟩

/-- `deleteTimeEntry` (`src/app/src/stores/timeEntryStore.ts`, lines
120-141).  There is no local existence check: the DELETE request is issued
unconditionally, and on a 2xx response the record (if any) is filtered out
of the local collection; on failure the collection is unchanged. -/
def deleteTimeEntryRun (s : TimeEntryStoreState) (id : String)
    (r : FetchResult Unit) : ActionOut TimeEntryStoreState Unit :=
  match r with
  | .reject msg =>
    ⟨{ timeEntries := s.timeEntries, isLoading := false, error := some msg },
     .error msg, true⟩
  | .response ok status _ =>
    if !ok then
      ⟨{ timeEntries := s.timeEntries, isLoading := false,
         error := some (httpErrorMsg status) },
       .error (httpErrorMsg status), true⟩
    else
      ⟨{ timeEntries := s.timeEntries.filter (fun e => e.id ≠ id), isLoading := false,
         error := none },
       .ok (), true⟩

/-! ### Derived aggregate computation (`src/app/src/views/ReflectionPage.vue`) -/

/-- `Math.round((num / den) * 100)` for non-negative operands:
`⌊100 num / den + 1/2⌋` (JS `Math.round` rounds half toward +∞).  Callers
guard `den > 0`. -/
def mathRound100 (num den : Nat) : Nat :=
  (200 * num + den) / (2 * den)

/-- Result of the `completionStats` computed (lines 113-126). -/
structure CompletionStats where
  total : Nat
  completed : Nat
  inProgress : Nat
  notStarted : Nat
  completionRate : Nat
deriving DecidableEq, Repr

/-- `completionStats`: partition the selected week's tasks by status;
`completionRate = round(100 * completed / total)` guarded by `total > 0`. -/
def completionStats (weekTasks : List Task) : CompletionStats :=
  let total := weekTasks.length
  let completed := (weekTasks.filter (fun t => t.status = TaskStatus.completed)).length
  let inProgress := (weekTasks.filter (fun t => t.status = TaskStatus.in_progress)).length
  let notStarted := (weekTasks.filter (fun t => t.status = TaskStatus.not_started)).length
  { total := total
    completed := completed
    inProgress := inProgress
    notStarted := notStarted
    completionRate := if 0 < total then mathRound100 completed total else 0 }

/-- Result of the `timeStats` computed (lines 129-140). -/
structure TimeStats where
  plannedMinutes : Nat
  actualMinutes : Nat
  efficiency : Nat
  variance : Int
deriving DecidableEq, Repr

/-- `timeStats`: `selectedWeek?.totalPlannedMinutes || 0` and the
efficiency/variance derived from the week's aggregates, with the
zero-estimate guard. -/
def timeStats (selectedWeek : Option Week) : TimeStats :=
  let plannedMinutes := (selectedWeek.map (fun w => w.totalPlannedMinutes)).getD 0
  let actualMinutes := (selectedWeek.map (fun w => w.totalActualMinutes)).getD 0
  { plannedMinutes := plannedMinutes
    actualMinutes := actualMinutes
    efficiency := if 0 < plannedMinutes then mathRound100 actualMinutes plannedMinutes else 0
    variance := (actualMinutes : Int) - (plannedMinutes : Int) }

/-- The per-area accumulator record of `areaBreakdown` (lines 146-162). -/
structure AreaStats where
  tasks : Nat
  completed : Nat
  plannedMinutes : Nat
  actualMinutes : Nat
deriving DecidableEq, Repr

/-- The body of the inner `forEach`: create the key with zeroed stats if
absent (JS object keys keep insertion order), then add this task's full
contribution.  First matching key is updated in place; a new key is
appended. -/
def bumpArea (t : Task) : List (String × AreaStats) → String → List (String × AreaStats)
  | [], area =>
    [(area, { tasks := 1
              completed := if t.status = TaskStatus.completed then 1 else 0
              plannedMinutes := t.estimatedMinutes
              actualMinutes := t.actualMinutes })]
  | (k, st) :: rest, area =>
    if k = area then
      (k, { tasks := st.tasks + 1
            completed := st.completed + (if t.status = TaskStatus.completed then 1 else 0)
            plannedMinutes := st.plannedMinutes + t.estimatedMinutes
            actualMinutes := st.actualMinutes + t.actualMinutes }) :: rest
    else
      (k, st) :: bumpArea t rest area

/-- One row of the `areaBreakdown` result (lines 164-168). -/
structure AreaRow where
  area : String
  tasks : Nat
  completed : Nat
  plannedMinutes : Nat
  actualMinutes : Nat
  completionRate : Nat
deriving DecidableEq, Repr

/-- `areaBreakdown`: every task contributes its full estimated and actual
minutes (and completion) to each of its areas; the accumulated record is
flattened to rows with a per-area completion rate. -/
def areaBreakdown (weekTasks : List Task) : List AreaRow :=
  if weekTasks.isEmpty then []
  else
    let areas := weekTasks.foldl (fun acc t => t.areas.foldl (bumpArea t) acc) []
    areas.map (fun p =>
      { area := p.1
        tasks := p.2.tasks
        completed := p.2.completed
        plannedMinutes := p.2.plannedMinutes
        actualMinutes := p.2.actualMinutes
        completionRate := if 0 < p.2.tasks then mathRound100 p.2.completed p.2.tasks else 0 })

/-- One row of the `statusBreakdown` result (lines 172-196). -/
structure StatusRow where
  status : String
  tasks : Nat
  percentage : Nat
deriving DecidableEq, Repr

/-- Number of the week's tasks having a given status (the `forEach`
increments over the fixed three-key record). -/
def countStatus (weekTasks : List Task) (st : TaskStatus) : Nat :=
  (weekTasks.filter (fun t => t.status = st)).length

/-- `statusBreakdown`: early `[]` on an empty collection, otherwise the
three fixed statuses in object-key order with their counts and guarded
percentages. -/
def statusBreakdown (weekTasks : List Task) : List StatusRow :=
  if weekTasks.isEmpty then []
  else
    let total := weekTasks.length
    let pct := fun st =>
      if 0 < total then mathRound100 (countStatus weekTasks st) total else 0
    [ { status := "completed", tasks := countStatus weekTasks TaskStatus.completed
        percentage := pct TaskStatus.completed }
    , { status := "in_progress", tasks := countStatus weekTasks TaskStatus.in_progress
        percentage := pct TaskStatus.in_progress }
    , { status := "not_started", tasks := countStatus weekTasks TaskStatus.not_started
        percentage := pct TaskStatus.not_started } ]

/-- `getProgressPercentage` (`src/unnamed/part_002`, lines 216-220):
`planned === 0 ? 0 : Math.round((actual / planned) * 100)`. -/
def getProgressPercentage (actual planned : Nat) : Nat :=
  if planned = 0 then 0 else mathRound100 actual planned

/-! ### Calendar model

The views manipulate JS `Date` objects built from `YYYY-MM-DD` strings,
which parse as UTC midnight; we model the whole calendar in UTC (proleptic
Gregorian), so a date is a year/month/day triple and a timestamp is a count
of days (or milliseconds) from a fixed origin.  Differences and weekdays —
the only things the source derives from `getTime`/`getDay` — do not depend
on the choice of origin. -/

/-- A calendar date (month and day are 1-based). -/
structure Date where
  year : Nat
  month : Nat
  day : Nat
deriving DecidableEq, Repr

/-- Gregorian leap-year rule. -/
def isLeapYear (y : Nat) : Bool :=
  (y % 4 = 0 && y % 100 ≠ 0) || y % 400 = 0

/-- Days in a month of a given year. -/
def monthLength (y m : Nat) : Nat :=
  if m = 2 then (if isLeapYear y then 29 else 28)
  else if m = 4 ∨ m = 6 ∨ m = 9 ∨ m = 11 then 30
  else 31

/-- Zero-based day of the year: days elapsed since January 1. -/
def dayOfYear0 (d : Date) : Nat :=
  ((List.range (d.month - 1)).map (fun k => monthLength d.year (k + 1))).sum + (d.day - 1)

/-- Leap years among `1, …, n`. -/
def leapCount (n : Nat) : Nat :=
  n / 4 - n / 100 + n / 400

/-- Days from 0001-01-01 (proleptic Gregorian) to the given date. -/
def civilDays (d : Date) : Nat :=
  365 * (d.year - 1) + leapCount (d.year - 1) + dayOfYear0 d

/-- `Date.prototype.getDay` in UTC: 0 = Sunday … 6 = Saturday
(0001-01-01 is a Monday). -/
def weekdayOf (d : Date) : Nat :=
  (civilDays d + 1) % 7

/-- `Date.prototype.getTime` up to a constant origin shift: milliseconds
of the UTC-midnight instant of the date. -/
def getTimeMs (d : Date) : Nat :=
  86400000 * civilDays d

/-- The next calendar day. -/
def nextDay (d : Date) : Date :=
  if d.day < monthLength d.year d.month then { d with day := d.day + 1 }
  else if d.month < 12 then { year := d.year, month := d.month + 1, day := 1 }
  else { year := d.year + 1, month := 1, day := 1 }

/-- `date.setDate(startDate.getDate() + i)` on a normalized date: advance
`i` calendar days. -/
def addDays (d : Date) : Nat → Date
  | 0 => d
  | n + 1 => nextDay (addDays d n)

/-- Zero-pad a number to two digits (`String.prototype.padStart(2, '0')`,
and the day/month fields of `toISOString`). -/
def pad2 (n : Nat) : String :=
  if n < 10 then "0" ++ toString n else toString n

/-- `date.toISOString().split('T')[0]` of a UTC-midnight date. -/
def toDateStr (d : Date) : String :=
  toString d.year ++ "-" ++ pad2 d.month ++ "-" ++ pad2 d.day

/-- The numeric value of a decimal digit character. -/
def charDigit? (c : Char) : Option Nat :=
  if c.isDigit then some (c.toNat - 48) else none

/-- Parse a non-empty all-digit character list as a decimal number
(the character-level counterpart of `String.toNat?`). -/
def digitsToNat? (cs : List Char) : Option Nat :=
  if cs.isEmpty then none
  else
    cs.foldl (fun acc c =>
      match acc, charDigit? c with
      | some n, some d => some (10 * n + d)
      | _, _ => none) (some 0)

/-- `new Date(s)` for a `YYYY-MM-DD` string (`none` when the numeric
fields do not parse, modelling an Invalid Date). -/
def parseDate (s : String) : Option Date :=
  let cs := s.data
  match digitsToNat? (cs.take 4), digitsToNat? ((cs.drop 5).take 2),
      digitsToNat? ((cs.drop 8).take 2) with
  | some y, some m, some d => some { year := y, month := m, day := d }
  | _, _, _ => none

/-- `Math.ceil(a / b)` for non-negative operands. -/
def mathCeilDiv (a b : Nat) : Nat :=
  (a + b - 1) / b

/-- `getWeekNumber` (`src/unnamed/part_000`, lines 71-75):
`Math.ceil((pastDaysOfYear + firstDayOfYear.getDay() + 1) / 7)` where
`pastDaysOfYear` is the day difference between the date and January 1 of
its year, computed from millisecond timestamps. -/
def getWeekNumber (d : Date) : Nat :=
  let firstDayOfYear : Date := { year := d.year, month := 1, day := 1 }
  let pastDaysOfYear := (getTimeMs d - getTimeMs firstDayOfYear) / 86400000
  mathCeilDiv (pastDaysOfYear + weekdayOf firstDayOfYear + 1) 7

/-- `generateWeekId` (`src/unnamed/part_000`, lines 63-68):
`` `${year}-W${weekNumber.toString().padStart(2, '0')}` ``. -/
def generateWeekId (d : Date) : String :=
  toString d.year ++ "-W" ++ pad2 (getWeekNumber d)

/-- Modelled from the spec's words (§4.2 Week ID generation), for the
refinement comparison with `generateWeekId`: year = calendar year of the
start date, week number = `ceil((dayOfYear + firstDayOfYearWeekday + 1) / 7)`
with the day of the year counted as days elapsed since January 1, zero-padded
to two digits. -/
def weekIdSpec (d : Date) : String :=
  let weekNumber := mathCeilDiv
    (dayOfYear0 d + weekdayOf { year := d.year, month := 1, day := 1 } + 1) 7
  toString d.year ++ "-W" ++ pad2 weekNumber

/-! ### Daily time distribution (`ReflectionPage.vue`, lines 199-228) -/

/-- `entry.startTime.split('T')[0]`: the characters before the first `T`. -/
def startDatePart (s : String) : String :=
  String.mk (s.data.takeWhile (fun c => c ≠ 'T'))

/-- One element of the `dailyTimeDistribution` array. -/
structure DayBucket where
  date : String
  day : String
  minutes : Nat
deriving DecidableEq, Repr

/-- `toLocaleDateString('en-US', { weekday: 'short' })` from a JS
`getDay()` index. -/
def dayShort (w : Nat) : String :=
  (["Sun", "Mon", "Tue", "Wed", "Thu", "Fri", "Sat"]).getD w ""

/-- `dailyTimeDistribution`: for each of the 7 days starting at the week's
start date, sum the minutes of the entries whose `startTime` has that
calendar date as its `T`-prefix.  `none` models the early `[]`/invalid-date
cases where `selectedWeek.startDate` does not parse. -/
def dailyTimeDistribution (week : Week) (weekTimeEntries : List TimeEntry) :
    Option (List DayBucket) :=
  match parseDate week.startDate with
  | none => none
  | some startDate =>
    some ((List.range 7).map (fun i =>
      let date := addDays startDate i
      let dateStr := toDateStr date
      let dayEntries := weekTimeEntries.filter (fun e => startDatePart e.startTime = dateStr)
      { date := dateStr
        day := dayShort (weekdayOf date)
        minutes := dayEntries.foldl (fun sum e => sum + e.minutes) 0 }))

/-- `calculateMinutes` (`src/app/src/components/TimeEntryFormModal.vue`,
lines 58-75).  Times are millisecond instants (`none` models an empty,
falsy form field).  `Math.round(x)` for the non-negative `x` reached here
is `⌊x + 1/2⌋`. -/
def calculateMinutes (start finish : Option Int) : Int :=
  match start, finish with
  | none, _ => 0
  | _, none => 0
  | some s, some e =>
    if e ≤ s then 0
    else (2 * (e - s) + 60000) / (2 * 60000)

/-- `true` when a settled promise value is a rejection. -/
def exceptIsErr {α : Type} : Except String α → Bool
  | .error _ => true
  | .ok _ => false

/-! ### Concrete fixtures used by counterexamples and witnesses -/

def sampleDraft : TaskDraft :=
  { weekId := "2025-W21", title := "Write report", description := none,
    areas := ["work"], estimatedMinutes := 60, status := TaskStatus.not_started }

def sampleTask : Task :=
  { id := "task-7", weekId := "2025-W21", title := "Old title", description := none,
    areas := ["work"], estimatedMinutes := 30, actualMinutes := 5,
    status := TaskStatus.in_progress, createdAt := "2025-05-19T08:00:00.000Z",
    updatedAt := "2025-05-19T08:00:00.000Z" }

def sampleEntryDraft : TimeEntryDraft :=
  { taskId := "task-7", startTime := "2025-05-21T14:00:00Z", endTime := none,
    minutes := 45, isManual := true, notes := none }

def sampleEntry : TimeEntry :=
  { id := "entry-7", taskId := "task-7", startTime := "2025-05-21T14:00:00Z",
    endTime := none, minutes := 45, isManual := true, notes := none,
    createdAt := "2025-05-21T15:00:00.000Z" }

def sampleWeek : Week :=
  { id := "2025-W21", title := none, description := none, startDate := "2025-05-19",
    endDate := "2025-05-25", totalPlannedMinutes := 120, totalActualMinutes := 90,
    isCurrentWeek := false, createdAt := "c", updatedAt := "u" }

/-- A task tagged with two areas (for the double-counting property). -/
def twoAreaTask : Task :=
  { id := "task-8", weekId := "2025-W21", title := "Two areas", description := none,
    areas := ["work", "learning"], estimatedMinutes := 10, actualMinutes := 0,
    status := TaskStatus.not_started, createdAt := "c", updatedAt := "u" }

/-- A task with positive estimate but an empty `areas` list — representable
in the store since nothing enforces non-emptiness. -/
def noAreaTask : Task :=
  { id := "task-9", weekId := "2025-W21", title := "No areas", description := none,
    areas := [], estimatedMinutes := 100, actualMinutes := 0,
    status := TaskStatus.not_started, createdAt := "c", updatedAt := "u" }

/-- A concrete time-entry store state. -/
def sampleTEState : TimeEntryStoreState :=
  { timeEntries := [sampleEntry], isLoading := false, error := none }

/-! ### Helper lemmas -/

theorem setSelfOfGetElem {α : Type} :
    ∀ (l : List α) (i : Nat) (a : α), l[i]? = some a → l.set i a = l := by
  intro l
  induction l with
  | nil => intro i a h; simp at h
  | cons x xs ih =>
    intro i a h
    cases i with
    | zero => simp at h; simp [List.set, h]
    | succ j => simp at h; simp [List.set, ih j a h]

theorem insertIdxEraseIdxSelf {α : Type} :
    ∀ (l : List α) (i : Nat) (a : α), l[i]? = some a → (l.eraseIdx i).insertIdx i a = l := by
  intro l
  induction l with
  | nil => intro i a h; simp at h
  | cons x xs ih =>
    intro i a h
    cases i with
    | zero => simp at h; simp [List.eraseIdx, List.insertIdx, h]
    | succ j =>
      simp at h
      rw [List.eraseIdx_cons_succ, List.insertIdx_succ_cons, ih j a h]

theorem findIdxSomeSpec {α : Type} (p : α → Bool) :
    ∀ (l : List α) (i : Nat), l.findIdx? p = some i → ∃ a, l[i]? = some a ∧ p a = true := by
  intro l
  induction l with
  | nil => intro i h; simp [List.findIdx?] at h
  | cons x xs ih =>
    intro i h
    rw [List.findIdx?_cons] at h
    by_cases hp : p x
    · simp [hp] at h
      exact ⟨x, by simp [← h], hp⟩
    · simp [hp, List.findIdx?_succ] at h
      obtain ⟨j, hj, hji⟩ := h
      obtain ⟨a, ha, hpa⟩ := ih j hj
      exact ⟨a, by simpa [← hji] using ha, hpa⟩

/-! ### C1: create → rollback -/

/-- C1, counterexample.  The claim says that when the remote create call
fails — "the fetch rejects or the response status is non-2xx" — the local
collection equals the collection before the action.  At this concrete
input the fetch rejects, the promise rejects, yet the task store's
collection still holds the optimistic record (the catch block of
`createTask` performs no rollback), so it differs from the empty
pre-collection. -/
theorem c1_counterexample :
    createTaskRun { tasks := [], isLoading := false, error := none } sampleDraft
        "task-1" "2025-05-20T08:00:00.000Z" (FetchResult.reject "Failed to fetch")
      = { state := { tasks := [mkNewTask sampleDraft "task-1" "2025-05-20T08:00:00.000Z"],
                     isLoading := false, error := some "Failed to fetch" },
          result := Except.error "Failed to fetch", didFetch := true }
    ∧ [mkNewTask sampleDraft "task-1" "2025-05-20T08:00:00.000Z"] ≠ ([] : List Task) := by
  decide

/-- C1, amended: if the remote create call fails with a non-2xx response
status, then — provided the locally generated id does not collide with an
id already in the collection — the task store's collection after the
failed create equals, element for element, the collection before the
action, and the caller's promise rejects.  The time-entry store (which is
not optimistic) keeps its collection unchanged and rejects on every
failing remote call, rejected fetches included; the task store, however,
retains the optimistic record when the fetch itself rejects. -/
theorem c1_create_rollback :
    (∀ (tasks : List Task) (isL : Bool) (err : Option String) (d : TaskDraft)
       (genId now : String) (status : Nat) (body : Except String Task),
       (∀ t ∈ tasks, t.id ≠ genId) →
       createTaskRun { tasks := tasks, isLoading := isL, error := err } d genId now
           (FetchResult.response false status body)
         = { state := { tasks := tasks, isLoading := false,
                        error := some (httpErrorMsg status) },
             result := Except.error (httpErrorMsg status), didFetch := true })
    ∧ (∀ (s : TimeEntryStoreState) (d : TimeEntryDraft) (genId now : String)
         (r : FetchResult TimeEntry),
         r.failed = true →
         (createTimeEntryRun s d genId now r).state.timeEntries = s.timeEntries
         ∧ ∃ m, (createTimeEntryRun s d genId now r).result = Except.error m) := by
  constructor
  · intro tasks isL err d genId now status body h
    simp only [createTaskRun, Bool.not_false, if_pos, List.filter_append]
    have h1 : tasks.filter (fun t => t.id ≠ (mkNewTask d genId now).id) = tasks :=
      List.filter_eq_self.mpr (fun t ht => by simpa [mkNewTask] using h t ht)
    have h2 : [mkNewTask d genId now].filter
        (fun t => t.id ≠ (mkNewTask d genId now).id) = [] := by
      simp
    rw [h1, h2, List.append_nil]
  · intro s d genId now r h
    cases r with
    | reject msg => exact ⟨rfl, msg, rfl⟩
    | response ok status body =>
      cases ok with
      | false => exact ⟨rfl, httpErrorMsg status, rfl⟩
      | true => simp [FetchResult.failed] at h

/-- C1, witness for the amended theorem at concrete inputs. -/
theorem c1_create_rollback_witness :
    createTaskRun { tasks := [sampleTask], isLoading := false, error := none }
        sampleDraft "task-9" "t1" (FetchResult.response false 500 (Except.error "bad"))
      = { state := { tasks := [sampleTask], isLoading := false,
                     error := some (httpErrorMsg 500) },
          result := Except.error (httpErrorMsg 500), didFetch := true }
    ∧ (createTimeEntryRun sampleTEState sampleEntryDraft "entry-9" "t1"
          (FetchResult.reject "Failed to fetch")).state.timeEntries = [sampleEntry] :=
  ⟨(c1_create_rollback.1 [sampleTask] false none sampleDraft "task-9" "t1" 500
      (Except.error "bad") (by decide)),
   (c1_create_rollback.2 sampleTEState sampleEntryDraft "entry-9" "t1"
      (FetchResult.reject "Failed to fetch") (by decide)).1⟩

/-! ### C2: update → rollback -/

/-- C2, counterexample.  The claim says that when the remote update call
fails — "the fetch rejects or the response status is non-2xx" — the record
at the target id equals its pre-update snapshot in every field.  At this
concrete input the fetch rejects and `updateTask` skips the rollback (it
only runs on the non-ok branch), so the stored record keeps the optimistic
title and refreshed `updatedAt`, differing from the snapshot. -/
theorem c2_counterexample :
    updateTaskRun { tasks := [sampleTask], isLoading := false, error := none }
        "task-7" { title := some "New title" } "t2" (FetchResult.reject "Failed to fetch")
      = { state := { tasks := [applyTaskUpdates sampleTask { title := some "New title" } "t2"],
                     isLoading := false, error := some "Failed to fetch" },
          result := Except.error "Failed to fetch", didFetch := true }
    ∧ applyTaskUpdates sampleTask { title := some "New title" } "t2" ≠ sampleTask := by
  decide

/-- C2, amended: if the remote update call fails with a non-2xx response
status, the task store's collection after the failed update equals the
collection before the action — in particular the record at the target id
equals its pre-update snapshot in every field, including fields not named
in the partial update — and the promise rejects.  The time-entry store,
which only writes the server's response into local state on success, keeps
its collection unchanged on every failing remote call, rejected fetches
included; the task store, however, keeps the optimistic record when the
fetch itself rejects. -/
theorem c2_update_rollback :
    (∀ (tasks : List Task) (isL : Bool) (err : Option String) (taskId : String)
       (u : TaskUpdates) (now : String) (status : Nat) (body : Except String Task)
       (i : Nat),
       tasks.findIdx? (fun t => t.id = taskId) = some i →
       updateTaskRun { tasks := tasks, isLoading := isL, error := err } taskId u now
           (FetchResult.response false status body)
         = { state := { tasks := tasks, isLoading := false,
                        error := some (httpErrorMsg status) },
             result := Except.error (httpErrorMsg status), didFetch := true })
    ∧ (∀ (s : TimeEntryStoreState) (id : String) (u : TimeEntryUpdates)
         (r : FetchResult TimeEntry),
         r.failed = true →
         (updateTimeEntryRun s id u r).state.timeEntries = s.timeEntries
         ∧ ∃ m, (updateTimeEntryRun s id u r).result = Except.error m) := by
  constructor
  · intro tasks isL err taskId u now status body i h
    obtain ⟨orig, hget, _⟩ := findIdxSomeSpec _ tasks i h
    simp only [updateTaskRun, h, hget]
    simp only [Bool.not_false, if_pos, List.set_set]
    rw [setSelfOfGetElem tasks i orig hget]
  · intro s id u r h
    unfold updateTimeEntryRun
    cases hfind : s.timeEntries.find? (fun e => e.id = id) with
    | none => exact ⟨rfl, "Time entry not found", rfl⟩
    | some existing =>
      cases r with
      | reject msg => exact ⟨rfl, msg, rfl⟩
      | response ok status body =>
        cases ok with
        | false => exact ⟨rfl, httpErrorMsg status, rfl⟩
        | true => simp [FetchResult.failed] at h

/-- C2, witness for the amended theorem at concrete inputs. -/
theorem c2_update_rollback_witness :
    updateTaskRun { tasks := [sampleTask], isLoading := false, error := none }
        "task-7" { title := some "New title" } "t2"
        (FetchResult.response false 500 (Except.error "bad"))
      = { state := { tasks := [sampleTask], isLoading := false,
                     error := some (httpErrorMsg 500) },
          result := Except.error (httpErrorMsg 500), didFetch := true }
    ∧ (updateTimeEntryRun sampleTEState "entry-7" { minutes := some 50 }
          (FetchResult.reject "Failed to fetch")).state.timeEntries = [sampleEntry] :=
  ⟨c2_update_rollback.1 [sampleTask] false none "task-7" { title := some "New title" }
      "t2" 500 (Except.error "bad") 0 (by decide),
   (c2_update_rollback.2 sampleTEState "entry-7" { minutes := some 50 }
      (FetchResult.reject "Failed to fetch") (by decide)).1⟩

/-! ### C3: delete → rollback -/

/-- C3, counterexample.  The claim says that when the remote delete call
fails — "the fetch rejects or the response status is non-2xx" — the record
is present again at its original index.  At this concrete input the fetch
rejects and `deleteTask` skips the re-insertion (it only runs on the non-ok
branch), so the collection stays empty and the record is gone. -/
theorem c3_counterexample :
    deleteTaskRun { tasks := [sampleTask], isLoading := false, error := none }
        "task-7" (FetchResult.reject "Failed to fetch")
      = { state := { tasks := [], isLoading := false, error := some "Failed to fetch" },
          result := Except.error "Failed to fetch", didFetch := true }
    ∧ ([] : List Task) ≠ [sampleTask] := by
  decide

/-- C3, amended: if the remote delete call fails with a non-2xx response
status, the task store's collection after the failed delete equals the
collection before the action, so the deleted record is present again at
its original index, and the promise rejects.  The time-entry store never
removes the record before the response arrives, so every failing remote
call, rejected fetches included, leaves its collection unchanged; the task
store, however, loses the record when the fetch itself rejects. -/
theorem c3_delete_rollback :
    (∀ (tasks : List Task) (isL : Bool) (err : Option String) (taskId : String)
       (status : Nat) (body : Except String Unit) (i : Nat),
       tasks.findIdx? (fun t => t.id = taskId) = some i →
       deleteTaskRun { tasks := tasks, isLoading := isL, error := err } taskId
           (FetchResult.response false status body)
         = { state := { tasks := tasks, isLoading := false,
                        error := some (httpErrorMsg status) },
             result := Except.error (httpErrorMsg status), didFetch := true })
    ∧ (∀ (s : TimeEntryStoreState) (id : String) (r : FetchResult Unit),
         r.failed = true →
         (deleteTimeEntryRun s id r).state.timeEntries = s.timeEntries
         ∧ ∃ m, (deleteTimeEntryRun s id r).result = Except.error m) := by
  constructor
  · intro tasks isL err taskId status body i h
    obtain ⟨orig, hget, _⟩ := findIdxSomeSpec _ tasks i h
    simp only [deleteTaskRun, h, hget]
    simp only [Bool.not_false, if_pos]
    rw [insertIdxEraseIdxSelf tasks i orig hget]
  · intro s id r h
    cases r with
    | reject msg => exact ⟨rfl, msg, rfl⟩
    | response ok status body =>
      cases ok with
      | false => exact ⟨rfl, httpErrorMsg status, rfl⟩
      | true => simp [FetchResult.failed] at h

/-- C3, witness for the amended theorem at concrete inputs. -/
theorem c3_delete_rollback_witness :
    deleteTaskRun { tasks := [sampleTask], isLoading := false, error := none }
        "task-7" (FetchResult.response false 500 (Except.ok ()))
      = { state := { tasks := [sampleTask], isLoading := false,
                     error := some (httpErrorMsg 500) },
          result := Except.error (httpErrorMsg 500), didFetch := true }
    ∧ (deleteTimeEntryRun sampleTEState "entry-7"
          (FetchResult.reject "Failed to fetch")).state.timeEntries = [sampleEntry] :=
  ⟨c3_delete_rollback.1 [sampleTask] false none "task-7" 500 (Except.ok ()) 0 (by decide),
   (c3_delete_rollback.2 sampleTEState "entry-7"
      (FetchResult.reject "Failed to fetch") (by decide)).1⟩

/-! ### C8: absent id → local not-found failure before any network request -/

/-- C8, counterexample.  The claim covers the Update(id) and Delete(id)
actions of both stores, but `deleteTimeEntry` performs no local existence
check: with an id absent from an empty collection it still issues the
DELETE request (`didFetch = true`) and, when the server answers 2xx, the
promise resolves with no error at all — it does not fail with a not-found
error, and the network request is issued. -/
theorem c8_counterexample :
    deleteTimeEntryRun { timeEntries := [], isLoading := false, error := none }
        "missing" (FetchResult.response true 200 (Except.ok ()))
      = { state := { timeEntries := [], isLoading := false, error := none },
          result := Except.ok (), didFetch := true } := by
  decide

/-- C8, amended: for every id absent from the local collection, the task
store's Update and Delete and the time-entry store's Update fail with a
not-found error before any network request is issued (`didFetch = false`)
and leave the collection unchanged; the time-entry store's Delete is the
exception — it always issues the network request. -/
theorem c8_not_found_guard :
    (∀ (tasks : List Task) (isL : Bool) (err : Option String) (taskId : String)
       (u : TaskUpdates) (now : String) (r : FetchResult Task),
       (∀ t ∈ tasks, t.id ≠ taskId) →
       updateTaskRun { tasks := tasks, isLoading := isL, error := err } taskId u now r
         = { state := { tasks := tasks, isLoading := false,
                        error := some "Task not found" },
             result := Except.error "Task not found", didFetch := false })
    ∧ (∀ (tasks : List Task) (isL : Bool) (err : Option String) (taskId : String)
         (r : FetchResult Unit),
         (∀ t ∈ tasks, t.id ≠ taskId) →
         deleteTaskRun { tasks := tasks, isLoading := isL, error := err } taskId r
           = { state := { tasks := tasks, isLoading := false,
                          error := some "Task not found" },
               result := Except.error "Task not found", didFetch := false })
    ∧ (∀ (s : TimeEntryStoreState) (id : String) (u : TimeEntryUpdates)
         (r : FetchResult TimeEntry),
         (∀ e ∈ s.timeEntries, e.id ≠ id) →
         updateTimeEntryRun s id u r
           = { state := { timeEntries := s.timeEntries, isLoading := false,
                          error := some "Time entry not found" },
               result := Except.error "Time entry not found", didFetch := false })
    ∧ (∀ (s : TimeEntryStoreState) (id : String) (r : FetchResult Unit),
         (deleteTimeEntryRun s id r).didFetch = true) := by
  refine ⟨?_, ?_, ?_, ?_⟩
  · intro tasks isL err taskId u now r h
    have hnone : tasks.findIdx? (fun t => t.id = taskId) = none :=
      List.findIdx?_eq_none_iff.mpr (fun t ht => by simpa using h t ht)
    simp only [updateTaskRun, hnone]
  · intro tasks isL err taskId r h
    have hnone : tasks.findIdx? (fun t => t.id = taskId) = none :=
      List.findIdx?_eq_none_iff.mpr (fun t ht => by simpa using h t ht)
    simp only [deleteTaskRun, hnone]
  · intro s id u r h
    have hnone : s.timeEntries.find? (fun e => e.id = id) = none :=
      List.find?_eq_none.mpr (fun e he => by simpa using h e he)
    simp only [updateTimeEntryRun, hnone]
  · intro s id r
    cases r with
    | reject msg => rfl
    | response ok status body => cases ok <;> rfl

/-- C8, witness for the amended theorem at concrete inputs. -/
theorem c8_not_found_guard_witness :
    updateTaskRun { tasks := [sampleTask], isLoading := false, error := none }
        "task-404" { title := some "x" } "t3" (FetchResult.reject "should not be sent")
      = { state := { tasks := [sampleTask], isLoading := false,
                     error := some "Task not found" },
          result := Except.error "Task not found", didFetch := false }
    ∧ deleteTaskRun { tasks := [sampleTask], isLoading := false, error := none }
        "task-404" (FetchResult.reject "should not be sent")
      = { state := { tasks := [sampleTask], isLoading := false,
                     error := some "Task not found" },
          result := Except.error "Task not found", didFetch := false }
    ∧ updateTimeEntryRun sampleTEState "entry-404" { minutes := some 1 }
        (FetchResult.reject "should not be sent")
      = { state := { timeEntries := [sampleEntry], isLoading := false,
                     error := some "Time entry not found" },
          result := Except.error "Time entry not found", didFetch := false }
    ∧ (deleteTimeEntryRun sampleTEState "entry-404"
        (FetchResult.response true 200 (Except.ok ()))).didFetch = true :=
  ⟨c8_not_found_guard.1 [sampleTask] false none "task-404" { title := some "x" } "t3"
      (FetchResult.reject "should not be sent") (by decide),
   c8_not_found_guard.2.1 [sampleTask] false none "task-404"
      (FetchResult.reject "should not be sent") (by decide),
   by
     have h := c8_not_found_guard.2.2.1 sampleTEState "entry-404" { minutes := some 1 }
       (FetchResult.reject "should not be sent") (by decide)
     simpa [sampleTEState] using h,
   c8_not_found_guard.2.2.2 sampleTEState "entry-404"
      (FetchResult.response true 200 (Except.ok ()))⟩

/-! ### C10: loading flag and error slot after settling -/

/-- C10: for every action of both stores — fetch, create, update, delete —
and every behaviour of the remote call, once the action settles the
`isLoading` flag is `false` (the `finally` block always clears it), and
the error slot is occupied exactly when the returned promise rejects:
non-null on rejection, null on success. -/
theorem c10_settled_flags :
    (∀ (s : TaskStoreState) (r : FetchResult (List Task)),
       (fetchTasksRun s r).state.isLoading = false
       ∧ (fetchTasksRun s r).state.error.isSome = exceptIsErr (fetchTasksRun s r).result)
    ∧ (∀ (s : TaskStoreState) (d : TaskDraft) (genId now : String)
         (r : FetchResult Task),
       (createTaskRun s d genId now r).state.isLoading = false
       ∧ (createTaskRun s d genId now r).state.error.isSome
           = exceptIsErr (createTaskRun s d genId now r).result)
    ∧ (∀ (s : TaskStoreState) (taskId : String) (u : TaskUpdates) (now : String)
         (r : FetchResult Task),
       (updateTaskRun s taskId u now r).state.isLoading = false
       ∧ (updateTaskRun s taskId u now r).state.error.isSome
           = exceptIsErr (updateTaskRun s taskId u now r).result)
    ∧ (∀ (s : TaskStoreState) (taskId : String) (r : FetchResult Unit),
       (deleteTaskRun s taskId r).state.isLoading = false
       ∧ (deleteTaskRun s taskId r).state.error.isSome
           = exceptIsErr (deleteTaskRun s taskId r).result)
    ∧ (∀ (s : TimeEntryStoreState) (r : FetchResult (List TimeEntry)),
       (fetchTimeEntriesRun s r).state.isLoading = false
       ∧ (fetchTimeEntriesRun s r).state.error.isSome
           = exceptIsErr (fetchTimeEntriesRun s r).result)
    ∧ (∀ (s : TimeEntryStoreState) (d : TimeEntryDraft) (genId now : String)
         (r : FetchResult TimeEntry),
       (createTimeEntryRun s d genId now r).state.isLoading = false
       ∧ (createTimeEntryRun s d genId now r).state.error.isSome
           = exceptIsErr (createTimeEntryRun s d genId now r).result)
    ∧ (∀ (s : TimeEntryStoreState) (id : String) (u : TimeEntryUpdates)
         (r : FetchResult TimeEntry),
       (updateTimeEntryRun s id u r).state.isLoading = false
       ∧ (updateTimeEntryRun s id u r).state.error.isSome
           = exceptIsErr (updateTimeEntryRun s id u r).result)
    ∧ (∀ (s : TimeEntryStoreState) (id : String) (r : FetchResult Unit),
       (deleteTimeEntryRun s id r).state.isLoading = false
       ∧ (deleteTimeEntryRun s id r).state.error.isSome
           = exceptIsErr (deleteTimeEntryRun s id r).result) := by
  refine ⟨?_, ?_, ?_, ?_, ?_, ?_, ?_, ?_⟩
  · intro s r
    cases r with
    | reject msg => exact ⟨rfl, rfl⟩
    | response ok status body => cases ok <;> cases body <;> exact ⟨rfl, rfl⟩
  · intro s d genId now r
    cases r with
    | reject msg => exact ⟨rfl, rfl⟩
    | response ok status body => cases ok <;> cases body <;> exact ⟨rfl, rfl⟩
  · intro s taskId u now r
    refine ⟨?_, ?_⟩ <;> (unfold updateTaskRun; repeat' split) <;> rfl
  · intro s taskId r
    refine ⟨?_, ?_⟩ <;> (unfold deleteTaskRun; repeat' split) <;> rfl
  · intro s r
    cases r with
    | reject msg => exact ⟨rfl, rfl⟩
    | response ok status body => cases ok <;> cases body <;> exact ⟨rfl, rfl⟩
  · intro s d genId now r
    cases r with
    | reject msg => exact ⟨rfl, rfl⟩
    | response ok status body => cases ok <;> cases body <;> exact ⟨rfl, rfl⟩
  · intro s id u r
    refine ⟨?_, ?_⟩ <;> (unfold updateTimeEntryRun; repeat' split) <;> rfl
  · intro s id r
    cases r with
    | reject msg => exact ⟨rfl, rfl⟩
    | response ok status body => cases ok <;> exact ⟨rfl, rfl⟩

/-! ### C4: zero totals give zero rates, totally -/

/-- C4: with zero tasks and a week whose `totalPlannedMinutes` is 0, every
derived aggregate evaluates to its zero default: the completion rate is 0,
the status and area breakdowns are empty (so every per-status percentage
and per-area completion rate in them is 0), the efficiency is 0 (also when
no week is selected at all), and the progress percentage is 0 for any
actual minutes.  Totality never-throws is witnessed by the embedding
itself: each computation is a total function whose divisions are guarded,
exactly as in the source. -/
theorem c4_zero_totals :
    (completionStats []).completionRate = 0
    ∧ (completionStats []).total = 0
    ∧ statusBreakdown [] = []
    ∧ areaBreakdown [] = []
    ∧ (∀ w : Week, (timeStats (some { w with totalPlannedMinutes := 0 })).efficiency = 0)
    ∧ (timeStats none).efficiency = 0
    ∧ (∀ actual : Nat, getProgressPercentage actual 0 = 0) :=
  ⟨rfl, rfl, rfl, rfl, fun _ => rfl, rfl, fun _ => rfl⟩

/-- C4, witness instantiating the quantified conjuncts at concrete inputs. -/
theorem c4_zero_totals_witness :
    (timeStats (some { sampleWeek with totalPlannedMinutes := 0 })).efficiency = 0
    ∧ getProgressPercentage 37 0 = 0 :=
  ⟨c4_zero_totals.2.2.2.2.1 sampleWeek, c4_zero_totals.2.2.2.2.2.2 37⟩

/-! ### C5: the area breakdown double-counts multi-area tasks -/

theorem bumpAreaPlanned (t : Task) :
    ∀ (acc : List (String × AreaStats)) (area : String),
      ((bumpArea t acc area).map (fun p => p.2.plannedMinutes)).sum
        = (acc.map (fun p => p.2.plannedMinutes)).sum + t.estimatedMinutes := by
  intro acc
  induction acc with
  | nil => intro area; simp [bumpArea]
  | cons hd tl ih =>
    intro area
    obtain ⟨k, st⟩ := hd
    by_cases hk : k = area
    · simp [bumpArea, hk]
      omega
    · simp [bumpArea, hk, ih]
      omega

theorem foldAreasPlanned (t : Task) :
    ∀ (areas : List String) (acc : List (String × AreaStats)),
      ((areas.foldl (bumpArea t) acc).map (fun p => p.2.plannedMinutes)).sum
        = (acc.map (fun p => p.2.plannedMinutes)).sum + areas.length * t.estimatedMinutes := by
  intro areas
  induction areas with
  | nil => intro acc; simp
  | cons a rest ih =>
    intro acc
    rw [List.foldl_cons, ih, bumpAreaPlanned t acc a]
    simp [List.length_cons]
    ring

theorem foldTasksPlanned :
    ∀ (ts : List Task) (acc : List (String × AreaStats)),
      (((ts.foldl (fun acc t => t.areas.foldl (bumpArea t) acc) acc).map
          (fun p => p.2.plannedMinutes)).sum)
        = (acc.map (fun p => p.2.plannedMinutes)).sum
          + (ts.map (fun t => t.areas.length * t.estimatedMinutes)).sum := by
  intro ts
  induction ts with
  | nil => intro acc; simp
  | cons t rest ih =>
    intro acc
    rw [List.foldl_cons, ih, foldAreasPlanned t t.areas acc]
    simp [List.map_cons, List.sum_cons]
    ring

theorem areaBreakdownPlannedSum (ts : List Task) :
    ((areaBreakdown ts).map (fun row => row.plannedMinutes)).sum
      = (ts.map (fun t => t.areas.length * t.estimatedMinutes)).sum := by
  unfold areaBreakdown
  by_cases h : ts.isEmpty
  · rw [List.isEmpty_iff] at h
    subst h
    simp
  · simp only [h, Bool.false_eq_true, if_false, List.map_map]
    have := foldTasksPlanned ts []
    simpa using this

/-- C5, counterexample.  The claim's "consequently" clause quantifies over
every task collection in which all estimates are positive and some task
has more than one area; it omits the data-model assumption that every task
carries at least one area.  With a two-area 10-minute task and a zero-area
100-minute task, the per-area planned sum is 20 while the task estimate
sum is 110, so the claimed strict inequality fails. -/
theorem c5_counterexample :
    0 < twoAreaTask.estimatedMinutes
    ∧ 0 < noAreaTask.estimatedMinutes
    ∧ 1 < twoAreaTask.areas.length
    ∧ ¬ (((areaBreakdown [twoAreaTask, noAreaTask]).map
            (fun row => row.plannedMinutes)).sum
          > ([twoAreaTask, noAreaTask].map (fun t => t.estimatedMinutes)).sum) := by
  decide

/-- C5 (amended): the area breakdown adds each task's full
`estimatedMinutes` to the planned sum of every area the task is tagged
with — the per-area planned sums always total `Σ (areas · estimate)` over
the tasks — and consequently, when every task's estimate is positive,
every task carries at least one area, and some task carries more than
one, the planned minutes summed across areas strictly exceed the estimate
summed over the tasks. -/
theorem c5_area_double_count :
    (∀ ts : List Task,
       ((areaBreakdown ts).map (fun row => row.plannedMinutes)).sum
         = (ts.map (fun t => t.areas.length * t.estimatedMinutes)).sum)
    ∧ (∀ ts : List Task,
       (∀ t ∈ ts, 0 < t.estimatedMinutes ∧ t.areas ≠ []) →
       (∃ t ∈ ts, 1 < t.areas.length) →
       ((areaBreakdown ts).map (fun row => row.plannedMinutes)).sum
         > (ts.map (fun t => t.estimatedMinutes)).sum) := by
  refine ⟨areaBreakdownPlannedSum, ?_⟩
  intro ts h1 h2
  rw [areaBreakdownPlannedSum]
  obtain ⟨t0, ht0, hlen⟩ := h2
  obtain ⟨s, u, rfl⟩ := List.append_of_mem ht0
  have hs : ((s.map (fun t => t.estimatedMinutes)).sum)
      ≤ (s.map (fun t => t.areas.length * t.estimatedMinutes)).sum := by
    refine List.sum_le_sum ?_
    intro t ht
    have h := h1 t (by simp [ht])
    have hp : 0 < t.areas.length := List.length_pos.mpr h.2
    calc t.estimatedMinutes = 1 * t.estimatedMinutes := by ring
    _ ≤ t.areas.length * t.estimatedMinutes := Nat.mul_le_mul_right _ hp
  have hu : ((u.map (fun t => t.estimatedMinutes)).sum)
      ≤ (u.map (fun t => t.areas.length * t.estimatedMinutes)).sum := by
    refine List.sum_le_sum ?_
    intro t ht
    have h := h1 t (by simp [ht])
    have hp : 0 < t.areas.length := List.length_pos.mpr h.2
    calc t.estimatedMinutes = 1 * t.estimatedMinutes := by ring
    _ ≤ t.areas.length * t.estimatedMinutes := Nat.mul_le_mul_right _ hp
  have hest : 0 < t0.estimatedMinutes := (h1 t0 (by simp)).1
  have hhead : t0.estimatedMinutes < t0.areas.length * t0.estimatedMinutes := by
    calc t0.estimatedMinutes < 2 * t0.estimatedMinutes := by omega
    _ ≤ t0.areas.length * t0.estimatedMinutes := Nat.mul_le_mul_right _ hlen
  simp only [List.map_append, List.sum_append, List.map_cons, List.sum_cons]
  omega

/-- C5, witness: one task with two areas and one with a single area, all
estimates positive — the planned sum across areas is 2·10 + 1·30 = 50,
strictly exceeding the estimate sum over tasks, 10 + 30 = 40. -/
theorem c5_area_double_count_witness :
    ((areaBreakdown [twoAreaTask, sampleTask]).map (fun row => row.plannedMinutes)).sum
      = ([twoAreaTask, sampleTask].map (fun t => t.areas.length * t.estimatedMinutes)).sum
    ∧ ((areaBreakdown [twoAreaTask, sampleTask]).map (fun row => row.plannedMinutes)).sum
      > ([twoAreaTask, sampleTask].map (fun t => t.estimatedMinutes)).sum :=
  ⟨c5_area_double_count.1 [twoAreaTask, sampleTask],
   c5_area_double_count.2 [twoAreaTask, sampleTask] (by decide)
     ⟨twoAreaTask, by decide⟩⟩

/-! ### C6: daily distribution buckets by the start time's calendar date -/

/-- C6: the daily time distribution for a week starting 2025-05-19
(Monday) with a single 45-minute entry starting 2025-05-21T14:00:00Z puts
45 minutes in the 2025-05-21 bucket and 0 in the other six; and in
general the bucketing reads only each entry's `startTime` (and minutes):
rewriting every entry's `endTime` arbitrarily leaves the distribution
unchanged, for every week and entry collection. -/
theorem c6_daily_buckets :
    dailyTimeDistribution sampleWeek [sampleEntry]
      = some [⟨"2025-05-19", "Mon", 0⟩, ⟨"2025-05-20", "Tue", 0⟩,
              ⟨"2025-05-21", "Wed", 45⟩, ⟨"2025-05-22", "Thu", 0⟩,
              ⟨"2025-05-23", "Fri", 0⟩, ⟨"2025-05-24", "Sat", 0⟩,
              ⟨"2025-05-25", "Sun", 0⟩]
    ∧ (∀ (w : Week) (entries : List TimeEntry) (f : TimeEntry → Option String),
        dailyTimeDistribution w (entries.map (fun e => { e with endTime := f e }))
          = dailyTimeDistribution w entries) := by
  constructor
  · decide
  · intro w entries f
    unfold dailyTimeDistribution
    cases parseDate w.startDate with
    | none => rfl
    | some sd =>
      refine congrArg some ?_
      refine List.map_congr_left ?_
      intro i _
      simp only [List.filter_map, List.foldl_map]
      rfl

/-! ### C7: week id generation -/

theorem pastDaysEqDayOfYear (d : Date) :
    (getTimeMs d - getTimeMs { year := d.year, month := 1, day := 1 }) / 86400000
      = dayOfYear0 d := by
  unfold getTimeMs civilDays
  have h0 : dayOfYear0 { year := d.year, month := 1, day := 1 } = 0 := by
    simp [dayOfYear0]
  rw [h0]
  have h1 : 86400000 * (365 * (d.year - 1) + leapCount (d.year - 1) + dayOfYear0 d)
      - 86400000 * (365 * (d.year - 1) + leapCount (d.year - 1) + 0)
      = 86400000 * dayOfYear0 d := by
    omega
  rw [h1, Nat.mul_div_cancel_left _ (by norm_num)]

/-- C7: for every start date, `generateWeekId` returns exactly
`{year}-W{weekNumber}` with the year taken from the calendar year of the
start date and the week number zero-padded to two digits and computed as
`ceil((dayOfYear + firstDayOfYearWeekday + 1) / 7)` (`weekIdSpec`, the
spec's formula, with the day of the year counted as days elapsed since
January 1 as the source's timestamp subtraction does); and the id is a
deterministic function of the start date: equal dates give equal ids. -/
theorem c7_week_id :
    (∀ d : Date, generateWeekId d = weekIdSpec d)
    ∧ (∀ d d' : Date, d = d' → generateWeekId d = generateWeekId d') := by
  constructor
  · intro d
    unfold generateWeekId weekIdSpec getWeekNumber
    simp only [pastDaysEqDayOfYear]
  · intro d d' h
    rw [h]

/-- C7, witness: the formula and determinism at 2025-01-01 (giving
"2025-W01") and at the sample week's Monday 2025-05-19 ("2025-W21"). -/
theorem c7_week_id_witness :
    generateWeekId { year := 2025, month := 1, day := 1 }
      = weekIdSpec { year := 2025, month := 1, day := 1 }
    ∧ generateWeekId { year := 2025, month := 5, day := 19 }
      = generateWeekId { year := 2025, month := 5, day := 19 }
    ∧ generateWeekId { year := 2025, month := 1, day := 1 } = "2025-W01" :=
  ⟨c7_week_id.1 { year := 2025, month := 1, day := 1 },
   c7_week_id.2 { year := 2025, month := 5, day := 19 }
     { year := 2025, month := 5, day := 19 } rfl,
   by decide⟩

/-! ### C9: range-mode duration computation -/

/-- C9: in range mode the computed duration is never negative; whenever
the end instant is at or before the start instant the result is exactly 0
(clamped, never negative); and for a strictly later end instant the
result is the elapsed time expressed in whole minutes — rounded to the
nearest whole minute, `⌊(end − start + 30000ms) / 60000ms⌋`.  An empty
start or end field also yields 0. -/
theorem c9_calculate_minutes :
    (∀ s e : Int, 0 ≤ calculateMinutes (some s) (some e))
    ∧ (∀ s e : Int, e ≤ s → calculateMinutes (some s) (some e) = 0)
    ∧ (∀ s e : Int, s < e →
        calculateMinutes (some s) (some e) = (e - s + 30000) / 60000)
    ∧ (∀ e : Option Int, calculateMinutes none e = 0)
    ∧ (∀ s : Int, calculateMinutes (some s) none = 0) := by
  refine ⟨?_, ?_, ?_, ?_, fun s => rfl⟩
  · intro s e
    unfold calculateMinutes
    by_cases h : e ≤ s
    · simp [h]
    · simp [h]
      have hpos : 0 < e - s := by omega
      positivity
  · intro s e h
    simp [calculateMinutes, h]
  · intro s e h
    have h2 : ¬ e ≤ s := by omega
    simp only [calculateMinutes, h2, if_false]
    omega
  · intro e
    cases e <;> rfl

/-- C9, witness: 90 seconds round to 2 minutes; a reversed range gives 0. -/
theorem c9_calculate_minutes_witness :
    0 ≤ calculateMinutes (some 0) (some 90000)
    ∧ calculateMinutes (some 100) (some 50) = 0
    ∧ calculateMinutes (some 0) (some 90000) = (90000 - 0 + 30000) / 60000 :=
  ⟨c9_calculate_minutes.1 0 90000,
   c9_calculate_minutes.2.1 100 50 (by decide),
   c9_calculate_minutes.2.2.1 0 90000 (by decide)⟩

end Planner
